import Mathlib

/-!
Verification of the TaJustito time-tracking application (src/app.py).

Shallow embedding conventions:
* Timestamps (datetime values) are modelled as integer seconds; calendar dates
  are modelled as integer day numbers with day 0 a Monday, so that the date of
  a timestamp is its floor-division by 86400 and the weekday of a day number
  is its value modulo 7 (Monday = 0, matching Python date.weekday()).
* Table rows are structures; each table is a list kept in insertion order,
  which coincides with increasing AUTOINCREMENT id order, so the SQL query
  ORDER BY id DESC LIMIT 1 is the last element of the filtered list.
* Form fields arrive after HTTP parsing: a datetime-local field is empty,
  invalid, or a parsed timestamp (inductive FormDT); integer fields that the
  code parses inside try/except are Option values (none = ValueError).
* The random color choice (random.choice over the palette) is modelled by
  passing the chosen color as an argument, quantified over in theorems.
* inicializar_db runs before each request but is idempotent once the tables
  exist (CREATE TABLE IF NOT EXISTS, INSERT OR IGNORE on an existing config
  row), so it is a no-op on every state reachable from the initial state and
  is not repeated in the operation semantics.
-/

namespace TaJustito

/-- Row of the registros table (schema in inicializar_db, src/app.py lines
62-72): id, fecha TEXT, inicio TEXT nullable, fin TEXT nullable, duracion
INTEGER, descripcion TEXT nullable, manual INTEGER default 0. -/
structure Registro where
  id : Nat
  fecha : Int
  inicio : Option Int
  fin : Option Int
  duracion : Int
  descripcion : Option String
  manual : Nat
deriving DecidableEq

/-- Row of the tags table: id, nombre UNIQUE, color, max_diario, and the seven
per-weekday columns max_lunes .. max_domingo modelled as a list indexed by
weekday (Monday = index 0). -/
structure Tag where
  id : Nat
  nombre : String
  color : String
  maxDiario : Int
  maxPorDia : List Int
deriving DecidableEq

/-- The whole database: registros, tags, the registro_tags association table
as a list of (registro_id, tag_id) pairs, the single config value
horas_max_diarias, and the AUTOINCREMENT counters of both id columns. -/
structure DB where
  registros : List Registro
  tags : List Tag
  registroTags : List (Nat × Nat)
  horasMaxDiarias : Int
  nextRegistroId : Nat
  nextTagId : Nat
deriving DecidableEq

/-- Freshly initialized database (inicializar_db on an empty file): empty
tables, config row horas_max_diarias = 450, AUTOINCREMENT counters at 1. -/
def dbInicial : DB :=
  { registros := [], tags := [], registroTags := [], horasMaxDiarias := 450,
    nextRegistroId := 1, nextTagId := 1 }

/-- Date (day number) of a timestamp in seconds; Python datetime.date(). -/
def fechaDe (t : Int) : Int := t.fdiv 86400

/-- Weekday of a day number, Monday = 0; Python date.weekday() with the model
epoch (day 0) placed on a Monday. -/
def weekdayDe (d : Int) : Nat := (d.emod 7).toNat

/-- The WHERE clause of obtener_registro_activo: fin IS NULL AND manual = 0. -/
def esActivo (r : Registro) : Bool := r.fin.isNone && (r.manual == 0)

/-- obtener_registro_activo: SELECT * FROM registros WHERE fin IS NULL AND
manual = 0 ORDER BY id DESC LIMIT 1. Rows are stored in increasing id order,
so this is the last matching row. -/
def registroActivo (db : DB) : Option Registro :=
  (db.registros.filter esActivo).getLast?

/-- Number of rows satisfying the active-timer condition. -/
def numActivos (db : DB) : Nat := (db.registros.filter esActivo).length

/-- INSERT INTO registros (fecha, inicio, fin, duracion, descripcion, manual);
returns the updated database and cur.lastrowid. -/
def insertRegistro (db : DB) (fecha : Int) (inicio fin : Option Int)
    (duracion : Int) (descripcion : Option String) (manual : Nat) : DB × Nat :=
  let rid := db.nextRegistroId
  ({ db with
      registros := db.registros ++
        [{ id := rid, fecha := fecha, inicio := inicio, fin := fin,
           duracion := duracion, descripcion := descripcion, manual := manual }],
      nextRegistroId := rid + 1 }, rid)

/-- asignar_tags_a_registro: DELETE FROM registro_tags WHERE registro_id = ?,
then INSERT OR IGNORE each (registro_id, tag_id) pair (the UNIQUE constraint
makes the insert a no-op when the pair is already present). -/
def asignarTagsARegistro (db : DB) (rid : Nat) (tagIds : List Nat) : DB :=
  let limpio := db.registroTags.filter (fun p => p.1 != rid)
  { db with
      registroTags := tagIds.foldl
        (fun acc tid => if (rid, tid) ∈ acc then acc else acc ++ [(rid, tid)])
        limpio }

/-- do_POST, accion == start (src/app.py lines 284-305). Returns the new
database plus the flash (message, type) pair of the 303 redirect. -/
def accionStart (db : DB) (ahora : Int) (descripcion : Option String)
    (tagIds : List Nat) : DB × String × String :=
  if tagIds.isEmpty then
    (db, "Debes indicar al menos un tag.", "warning")
  else
    match registroActivo db with
    | some _ =>
        (db, "Ya hay un cronómetro en curso. Deténlo antes de iniciar uno nuevo.",
         "warning")
    | none =>
        let ins := insertRegistro db (fechaDe ahora) (some ahora) none 0 descripcion 0
        (asignarTagsARegistro ins.1 ins.2 tagIds, "Cronómetro iniciado.", "success")

/-- do_POST, accion == stop (src/app.py lines 306-322): UPDATE the active row
with fin = now and duracion = now - inicio. Rows created by accion start
always carry an inicio, so the getD 0 default is never reached from the
initial state. -/
def accionStop (db : DB) (ahora : Int) : DB × String × String :=
  match registroActivo db with
  | none => (db, "No hay un cronómetro en curso.", "warning")
  | some reg =>
      let dur := ahora - reg.inicio.getD 0
      ({ db with
          registros := db.registros.map (fun r =>
            if r.id = reg.id then { r with fin := some ahora, duracion := dur }
            else r) },
       "Cronómetro detenido.", "success")

/-- A datetime-local form field as the manual action sees it: empty string,
a non-empty string on which datetime.fromisoformat raises ValueError, or a
successfully parsed timestamp. -/
inductive FormDT where
  | vacia : FormDT
  | invalida : FormDT
  | valida : Int → FormDT
deriving DecidableEq

/-- The form fields of the manual action. durFields is none when int() raises
on either duration field (the code then zeroes both). -/
structure ManualForm where
  inicio : FormDT
  fin : FormDT
  durFields : Option (Int × Int)
  tags : List Nat
  descripcion : Option String
deriving DecidableEq

/-- The duration/fin resolution of the manual action (src/app.py lines
347-368): duracion starts at 0; a supplied fin later than inicio sets
duracion = fin - inicio; if duracion is still 0 the hours/minutes fields are
tried and, when positive, fin is recomputed as inicio + duracion. -/
def duracionYfin (inicioDt : Int) (fin : FormDT) (durFields : Option (Int × Int)) :
    Int × Option Int :=
  let paso1 : Int × Option Int :=
    match fin with
    | .valida finDt =>
        if inicioDt < finDt then (finDt - inicioDt, some finDt) else (0, none)
    | _ => (0, none)
  if paso1.1 = 0 then
    let hm := durFields.getD (0, 0)
    let d := hm.1 * 3600 + hm.2 * 60
    if 0 < d then (d, some (inicioDt + d)) else (d, paso1.2)
  else paso1

/-- do_POST, accion == manual (src/app.py lines 323-384). The warning message
about a fin earlier than inicio is always overwritten further down (either by
the insert success message or by the non-positive-duration warning), so only
the surviving messages appear here. -/
def accionManual (db : DB) (fo : ManualForm) : DB × String × String :=
  if fo.tags.isEmpty then
    (db, "Debes indicar al menos un tag.", "warning")
  else
    match fo.inicio with
    | .vacia =>
        (db, "Debes indicar fecha y hora de inicio para el registro manual.", "warning")
    | .invalida =>
        (db, "Formato de fecha y hora de inicio no válido.", "warning")
    | .valida inicioDt =>
        let df := duracionYfin inicioDt fo.fin fo.durFields
        if df.1 ≤ 0 then
          (db, "Debes indicar una duración o una fecha y hora de fin válidas.", "warning")
        else
          let ins := insertRegistro db (fechaDe inicioDt) (some inicioDt) df.2
            df.1 fo.descripcion 1
          (asignarTagsARegistro ins.1 ins.2 fo.tags, "Entrada registrada.", "success")

/-- The form fields of the cancelar action; fecha is none when the date field
is the empty string. -/
structure CancelarForm where
  fecha : Option Int
  horas : Int
  minutos : Int
  tags : List Nat
  descripcion : Option String
deriving DecidableEq

/-- do_POST, accion == cancelar (src/app.py lines 385-415): dur = h*3600+m*60;
rejected when 0; otherwise the negation is stored with NULL inicio and fin. -/
def accionCancelar (db : DB) (fo : CancelarForm) : DB × String × String :=
  if fo.tags.isEmpty then
    (db, "Debes indicar al menos un tag.", "warning")
  else
    match fo.fecha with
    | none => (db, "Debes indicar una fecha para cancelar horas.", "warning")
    | some f =>
        let dur := fo.horas * 3600 + fo.minutos * 60
        if dur = 0 then
          (db, "La duración debe ser mayor a cero para cancelar.", "warning")
        else
          let desc := some (fo.descripcion.getD "Cancelación de horas")
          let ins := insertRegistro db f none none (-dur) desc 1
          (asignarTagsARegistro ins.1 ins.2 fo.tags, "Cancelación registrada.", "success")

/-- POST /settings with the default accion (src/app.py lines 426-434):
update horas_max_diarias when horas*60+minutos is positive. -/
def accionSettings (db : DB) (horas minutos : Int) : DB × String × String :=
  let total := horas * 60 + minutos
  if total ≤ 0 then
    (db, "La cantidad máxima diaria debe ser mayor a cero.", "warning")
  else
    ({ db with horasMaxDiarias := total }, "Configuración actualizada.", "success")

/-- crear_tag: INSERT INTO tags with max_diario 0 and the given per-weekday
maxima; the UNIQUE constraint on nombre raises IntegrityError (modelled as
none) when the name already exists. The random color is a parameter. -/
def crearTag (db : DB) (nombre color : String) (maxPorDia : List Int) :
    DB × Option Nat :=
  if db.tags.any (fun t => t.nombre == nombre) then (db, none)
  else
    let tid := db.nextTagId
    ({ db with
        tags := db.tags ++
          [{ id := tid, nombre := nombre, color := color, maxDiario := 0,
             maxPorDia := maxPorDia }],
        nextTagId := tid + 1 }, some tid)

/-- POST /tags, accion == crear (src/app.py lines 437-447). -/
def accionTagCrear (db : DB) (nombre color : String) (maximos : List Int) :
    DB × String × String :=
  if nombre = "" then (db, "Debes indicar un nombre.", "warning")
  else
    match crearTag db nombre color maximos with
    | (db1, some _) => (db1, "Tag creado.", "success")
    | (db1, none) => (db1, "El tag ya existe.", "warning")

/-- POST /tags, accion == editar (src/app.py lines 448-463): UPDATE the row
with the given id; an IntegrityError (new nombre equal to a different
existing row while the updated row exists) rolls the request back. -/
def accionTagEditar (db : DB) (tagId : Nat) (nombre : String) (maximos : List Int) :
    DB × String × String :=
  if db.tags.any (fun t => t.id != tagId && t.nombre == nombre) &&
      db.tags.any (fun t => t.id == tagId) then
    (db, "Nombre de tag ya utilizado.", "warning")
  else
    ({ db with
        tags := db.tags.map (fun t =>
          if t.id = tagId then
            { t with nombre := nombre, maxDiario := 0, maxPorDia := maximos }
          else t) },
     "Tag actualizado.", "success")

/-- crear_tags_iniciales: create Trabajo, Estudio and Proyecto personal,
silently skipping names that already exist; one random color each. -/
def crearTagsIniciales (db : DB) (c1 c2 c3 : String) : DB :=
  let db1 := (crearTag db "Trabajo" c1 (List.replicate 7 0)).1
  let db2 := (crearTag db1 "Estudio" c2 (List.replicate 7 0)).1
  (crearTag db2 "Proyecto personal" c3 (List.replicate 7 0)).1

/-- asignar_trabajo_a_todos: INSERT OR IGNORE a (registro_id, trabajo_id)
pair for every registro, where trabajo_id is the first tag named Trabajo. -/
def asignarTrabajoATodos (db : DB) : DB :=
  match db.tags.find? (fun t => t.nombre == "Trabajo") with
  | none => db
  | some t =>
      { db with
          registroTags := db.registros.foldl
            (fun acc r => if (r.id, t.id) ∈ acc then acc else acc ++ [(r.id, t.id)])
            db.registroTags }

/-- handle_regen_color: UPDATE tags SET color WHERE id. -/
def handleRegenColor (db : DB) (tagId : Nat) (color : String) : DB :=
  { db with
      tags := db.tags.map (fun t =>
        if t.id = tagId then { t with color := color } else t) }

/-- An HTTP response of the interesting routes: a 303 redirect carrying the
flash message and type as query parameters (redirect_with_message), or an
error page (send_error). -/
inductive Respuesta where
  | redirect : Nat → String → String → String → Respuesta
  | error : Nat → Respuesta
deriving DecidableEq

/-- handle_delete, GET /delete/(id) (src/app.py lines 508-519). The path tail
is parsed with int(); failure yields a 400. The DELETE statement removes only
the registros row: although the registro_tags schema declares ON DELETE
CASCADE, the sqlite3 connections never execute PRAGMA foreign_keys = ON and
SQLite leaves foreign-key enforcement (including cascades) OFF by default,
so the association rows are untouched. Every parse-id, matching a row or
not, ends in the same 303 redirect. -/
def handleDelete (db : DB) (idParse : Option Int) : DB × Respuesta :=
  match idParse with
  | none => (db, .error 400)
  | some rid =>
      ({ db with registros := db.registros.filter (fun r => (r.id : Int) != rid) },
       .redirect 303 "/logs" "Registro eliminado." "success")

/-- Whether any registro_tags row references the tag id. -/
def tagReferenciado (db : DB) (tid : Int) : Bool :=
  db.registroTags.any (fun p => (p.2 : Int) == tid)

/-- handle_delete_tag, GET /tags/delete/(id) (src/app.py lines 521-539):
count the registro_tags rows with this tag_id; a positive count aborts with
a warning, otherwise the tags row is deleted. -/
def handleDeleteTag (db : DB) (idParse : Option Int) : DB × Respuesta :=
  match idParse with
  | none => (db, .error 400)
  | some tid =>
      if tagReferenciado db tid then
        (db, .redirect 303 "/tags"
          "Este tag ya se ha utilizado por lo que no se puede eliminar." "warning")
      else
        ({ db with tags := db.tags.filter (fun t => (t.id : Int) != tid) },
         .redirect 303 "/tags" "Tag eliminado." "success")

/-- One mutating request of the application. Request-supplied data (form
fields, parsed path ids, the random colors) are constructor arguments. -/
inductive Op where
  | start : Int → Option String → List Nat → Op
  | stop : Int → Op
  | manual : ManualForm → Op
  | cancelar : CancelarForm → Op
  | settings : Int → Int → Op
  | settingsInitTags : String → String → String → Op
  | settingsAssignTrabajo : Op
  | tagCrear : String → String → List Int → Op
  | tagEditar : Nat → String → List Int → Op
  | borrarRegistro : Option Int → Op
  | borrarTag : Option Int → Op
  | regenColor : Nat → String → Op

/-- The database effect of one mutating request. -/
def aplicarOp (db : DB) : Op → DB
  | .start ahora desc tagIds => (accionStart db ahora desc tagIds).1
  | .stop ahora => (accionStop db ahora).1
  | .manual fo => (accionManual db fo).1
  | .cancelar fo => (accionCancelar db fo).1
  | .settings h m => (accionSettings db h m).1
  | .settingsInitTags c1 c2 c3 => crearTagsIniciales db c1 c2 c3
  | .settingsAssignTrabajo => asignarTrabajoATodos db
  | .tagCrear nombre color maximos => (accionTagCrear db nombre color maximos).1
  | .tagEditar tid nombre maximos => (accionTagEditar db tid nombre maximos).1
  | .borrarRegistro p => (handleDelete db p).1
  | .borrarTag p => (handleDeleteTag db p).1
  | .regenColor tid color => handleRegenColor db tid color

/-- The max_(weekday) column of a tag: entry of maxPorDia at the weekday
index (Monday = 0). -/
def maxCol (t : Tag) (w : Nat) : Int := t.maxPorDia.getD w 0

/-- The join predicate of the per-day per-tag total query in render_logs and
render_index: registro of the given fecha joined to the tag through
registro_tags (the UNIQUE constraint on the pair makes the join multiplicity
at most one, so membership suffices). -/
def perteneceTagDia (db : DB) (tagId : Nat) (f : Int) (r : Registro) : Bool :=
  r.fecha == f && db.registroTags.contains (r.id, tagId)

/-- SUM(r.duracion) of the GROUP BY t.id row for one tag and one fecha. -/
def totalTagDia (db : DB) (tagId : Nat) (f : Int) : Int :=
  ((db.registros.filter (perteneceTagDia db tagId f)).map Registro.duracion).sum

/-- Whether the GROUP BY produces a row for this tag on this fecha, i.e.
whether the join is non-empty. -/
def tieneTagDia (db : DB) (tagId : Nat) (f : Int) : Bool :=
  db.registros.any (perteneceTagDia db tagId f)

/-- SUM(duracion) of registros of a fecha whose id is NOT IN
(SELECT registro_id FROM registro_tags). -/
def sinTagTotalDia (db : DB) (f : Int) : Int :=
  ((db.registros.filter (fun r =>
      r.fecha == f && !(db.registroTags.any (fun p => p.1 == r.id)))).map
    Registro.duracion).sum

/-- The calendar days of the queried month: desde, desde+1, ..., hasta-1
(render_logs iterates dia_iter from desde while dia_iter < hasta). -/
def diasMes (desde hasta : Int) : List Int :=
  (List.range (hasta - desde).toNat).map (fun i => desde + i)

/-- The keys of registros_por_dia in render_logs: the fechas of the month
that carry at least one registro, each once, in date order. -/
def fechasConRegistros (db : DB) (desde hasta : Int) : List Int :=
  (diasMes desde hasta).filter (fun d => db.registros.any (fun r => r.fecha == d))

/-- The accumulated monthly difference render_logs computes for one tag
(src/app.py lines 804-811 and 830-836): first one subtraction of the tag's
weekday maximum for every calendar day of the month, then, for every fecha
holding registros whose GROUP BY row for this tag exists, the addition of
that row's total. -/
def acumuladoTagMes (db : DB) (t : Tag) (desde hasta : Int) : Int :=
  let trasResta := (diasMes desde hasta).foldl
    (fun a d => a - maxCol t (weekdayDe d) * 60) 0
  (fechasConRegistros db desde hasta).foldl
    (fun a f => if tieneTagDia db t.id f then a + totalTagDia db t.id f else a)
    trasResta

/-- Modelled from the claim wording, for comparison with acumuladoTagMes: the
direct sum over all days of the month of (the tag's total entry duration that
day minus the weekday quota in minutes times 60). -/
def acumuladoTagMesSpec (db : DB) (t : Tag) (desde hasta : Int) : Int :=
  ((diasMes desde hasta).map
    (fun d => totalTagDia db t.id d - maxCol t (weekdayDe d) * 60)).sum

/-- The Diferencia column render_logs computes for one fecha (src/app.py
lines 826-834): over the GROUP BY rows of the tags present that day, plus the
synthetic sin-tag row appended when the untagged total is non-zero, sum
total - max_seg, where max_seg comes from the weekday column of the row and
the synthetic row carries 0 in that column. -/
def diferenciaDia (db : DB) (f : Int) : Int :=
  let w := weekdayDe f
  let conTag := (db.tags.filter (fun t => tieneTagDia db t.id f)).foldl
    (fun a t => a + (totalTagDia db t.id f - maxCol t w * 60)) 0
  let st := sinTagTotalDia db f
  if st ≠ 0 then conTag + (st - 0) else conTag

/-- One event block emitted by the render_calendar segmentation loop
(src/app.py lines 1016-1038). The code stores the start and duration as
minutes (floats); the model stores the exact values in seconds, sixty times
the code's numbers. -/
structure Segmento where
  day : Int
  inicioSeg : Int
  durSeg : Int
deriving DecidableEq

/-- The while loop of render_calendar, one recursive call per calendar day
visited: while the current date is within the entry and not past the end of
the week, clip the segment at the next midnight, emit it when the day index
falls inside 0..6, advance to the next midnight, and stop once that midnight
reaches the entry end. The fuel is the day span of the entry plus two, an
upper bound on the number of iterations. -/
def segmentarDesde : Nat → Int → Int → Int → Int → List Segmento
  | 0, _, _, _, _ => []
  | fuel + 1, currentStart, finDt, startOfWeek, endOfWeek =>
      if fechaDe currentStart ≤ fechaDe finDt ∧ fechaDe currentStart ≤ endOfWeek then
        let dayIndex := fechaDe currentStart - startOfWeek
        let dayEnd := (fechaDe currentStart + 1) * 86400
        let eventEnd := min finDt dayEnd
        let emitidos : List Segmento :=
          if 0 ≤ dayIndex ∧ dayIndex ≤ 6 then
            [{ day := dayIndex,
               inicioSeg := currentStart - fechaDe currentStart * 86400,
               durSeg := eventEnd - currentStart }]
          else []
        if dayEnd < finDt then
          emitidos ++ segmentarDesde fuel dayEnd finDt startOfWeek endOfWeek
        else emitidos
      else []

/-- The segments render_calendar emits for one entry with timestamps inicio
and fin, displayed in the week of days startOfWeek .. startOfWeek+6. -/
def segmentar (inicio fin startOfWeek endOfWeek : Int) : List Segmento :=
  segmentarDesde ((fechaDe fin - fechaDe inicio).toNat + 2) inicio fin
    startOfWeek endOfWeek

/-- Example tag with a 60-minute quota on every weekday. -/
def tagEjemplo : Tag :=
  { id := 1, nombre := "Trabajo", color := "#3cb44b", maxDiario := 0,
    maxPorDia := [60, 60, 60, 60, 60, 60, 60] }

/-- Example database for the monthly-difference computation: 90 tagged
minutes on day 0, 45 tagged minutes on day 1, nothing on day 2. -/
def dbEjemplo : DB :=
  { registros :=
      [{ id := 1, fecha := 0, inicio := none, fin := none, duracion := 5400,
         descripcion := none, manual := 1 },
       { id := 2, fecha := 1, inicio := none, fin := none, duracion := 2700,
         descripcion := none, manual := 1 }],
    tags := [tagEjemplo],
    registroTags := [(1, 1), (2, 1)],
    horasMaxDiarias := 450, nextRegistroId := 3, nextTagId := 2 }

/-- Example database with one untagged hour on day 0 and no tags at all. -/
def dbSinTagEj : DB :=
  { registros :=
      [{ id := 1, fecha := 0, inicio := none, fin := none, duracion := 3600,
         descripcion := none, manual := 1 }],
    tags := [], registroTags := [],
    horasMaxDiarias := 450, nextRegistroId := 2, nextTagId := 1 }

/-- Example database holding one entry (id 1) linked to tag 1. -/
def dbConVinculo : DB :=
  { registros :=
      [{ id := 1, fecha := 0, inicio := none, fin := none, duracion := 3600,
         descripcion := none, manual := 1 }],
    tags := [{ id := 1, nombre := "Trabajo", color := "#e6194B", maxDiario := 0,
               maxPorDia := [0, 0, 0, 0, 0, 0, 0] }],
    registroTags := [(1, 1)],
    horasMaxDiarias := 450, nextRegistroId := 2, nextTagId := 2 }

/-- Example database with a running timer (fin NULL, manual 0). -/
def dbConActivo : DB :=
  { registros :=
      [{ id := 1, fecha := 0, inicio := some 0, fin := none, duracion := 0,
         descripcion := none, manual := 0 }],
    tags := [{ id := 1, nombre := "Trabajo", color := "#e6194B", maxDiario := 0,
               maxPorDia := [0, 0, 0, 0, 0, 0, 0] }],
    registroTags := [(1, 1)],
    horasMaxDiarias := 450, nextRegistroId := 2, nextTagId := 2 }

/-- Example database with one unreferenced tag (id 2). -/
def dbTagLibre : DB :=
  { registros := [], tags :=
      [{ id := 2, nombre := "Estudio", color := "#ffe119", maxDiario := 0,
         maxPorDia := [0, 0, 0, 0, 0, 0, 0] }],
    registroTags := [],
    horasMaxDiarias := 450, nextRegistroId := 1, nextTagId := 3 }

/-- Manual form with an explicit end 90 minutes after the start. -/
def foManualFin : ManualForm :=
  { inicio := .valida 0, fin := .valida 5400, durFields := some (0, 0),
    tags := [1], descripcion := none }

/-- Manual form with no end and duration fields of 1 hour 1 minute. -/
def foManualDur : ManualForm :=
  { inicio := .valida 0, fin := .vacia, durFields := some (1, 1),
    tags := [1], descripcion := none }

/-- Manual form in which neither the end nor the duration fields yield a
positive duration. -/
def foManualNulo : ManualForm :=
  { inicio := .valida 0, fin := .vacia, durFields := some (0, 0),
    tags := [1], descripcion := none }

/-- Cancelar form with a negative hours field, which the server accepts. -/
def foCancelarNeg : CancelarForm :=
  { fecha := some 0, horas := -1, minutos := 0, tags := [1], descripcion := none }

/-- Cancelar form with nonnegative fields totalling 90 minutes. -/
def foCancelarOk : CancelarForm :=
  { fecha := some 0, horas := 1, minutos := 30, tags := [1], descripcion := none }

/-! ### Helper lemmas -/

theorem registros_asignar (db : DB) (rid : Nat) (tids : List Nat) :
    (asignarTagsARegistro db rid tids).registros = db.registros := rfl

theorem registros_insert (db : DB) (f : Int) (i fi : Option Int) (d : Int)
    (de : Option String) (m : Nat) :
    (insertRegistro db f i fi d de m).1.registros
      = db.registros ++
        [{ id := db.nextRegistroId, fecha := f, inicio := i, fin := fi,
           duracion := d, descripcion := de, manual := m }] := rfl

theorem numActivos_congr {db1 db2 : DB} (h : db1.registros = db2.registros) :
    numActivos db1 = numActivos db2 := by
  unfold numActivos; rw [h]

theorem length_filter_append_uno (l : List Registro) (r : Registro) :
    ((l ++ [r]).filter esActivo).length
      = (l.filter esActivo).length + (if esActivo r then 1 else 0) := by
  rw [List.filter_append]
  cases h : esActivo r <;> simp [List.filter_cons, h]

theorem numActivos_insert_manual (db : DB) (f : Int) (i fi : Option Int)
    (d : Int) (de : Option String) :
    numActivos (insertRegistro db f i fi d de 1).1 = numActivos db := by
  unfold numActivos
  rw [registros_insert, length_filter_append_uno]
  simp [esActivo]

theorem length_filter_map_le (l : List Registro) (f : Registro → Registro)
    (h : ∀ r, esActivo (f r) = true → f r = r) :
    ((l.map f).filter esActivo).length ≤ (l.filter esActivo).length := by
  induction l with
  | nil => simp
  | cons a t ih =>
      simp only [List.map_cons, List.filter_cons]
      cases hfa : esActivo (f a) with
      | false => cases ha : esActivo a <;> simp [hfa, ha] <;> omega
      | true =>
          have hfaeq := h a hfa
          rw [hfaeq] at hfa ⊢
          simp [hfa]
          omega

theorem length_filter_filter_le (l : List Registro) (p q : Registro → Bool) :
    ((l.filter q).filter p).length ≤ (l.filter p).length := by
  induction l with
  | nil => simp
  | cons a t ih =>
      cases hq : q a <;> cases hp : p a <;>
        simp [List.filter_cons, hp, hq, -List.filter_filter] <;> omega

theorem registros_crearTag (db : DB) (n c : String) (m : List Int) :
    (crearTag db n c m).1.registros = db.registros := by
  unfold crearTag; split <;> rfl

theorem registros_crearIniciales (db : DB) (c1 c2 c3 : String) :
    (crearTagsIniciales db c1 c2 c3).registros = db.registros := by
  unfold crearTagsIniciales
  rw [registros_crearTag, registros_crearTag, registros_crearTag]

theorem registros_trabajoATodos (db : DB) :
    (asignarTrabajoATodos db).registros = db.registros := by
  unfold asignarTrabajoATodos; split <;> rfl

theorem registros_tagCrear (db : DB) (n c : String) (m : List Int) :
    (accionTagCrear db n c m).1.registros = db.registros := by
  unfold accionTagCrear
  split
  · rfl
  · split <;>
      next db1 heq =>
        have h2 := registros_crearTag db n c m
        rw [heq] at h2
        exact h2

theorem registros_tagEditar (db : DB) (tid : Nat) (n : String) (m : List Int) :
    (accionTagEditar db tid n m).1.registros = db.registros := by
  unfold accionTagEditar; split <;> rfl

theorem registros_borrarTag (db : DB) (p : Option Int) :
    (handleDeleteTag db p).1.registros = db.registros := by
  unfold handleDeleteTag
  split
  · rfl
  · split <;> rfl

theorem registros_settings (db : DB) (h m : Int) :
    (accionSettings db h m).1.registros = db.registros := by
  unfold accionSettings; dsimp only; split <;> rfl

/-- One mutating request preserves the at-most-one-running-timer invariant. -/
theorem paso_preserva (db : DB) (op : Op) (h : numActivos db ≤ 1) :
    numActivos (aplicarOp db op) ≤ 1 := by
  cases op with
  | start ahora desc tagIds =>
      show numActivos (accionStart db ahora desc tagIds).1 ≤ 1
      unfold accionStart
      split
      · exact h
      · split
        · exact h
        · next heq =>
            have hnil : db.registros.filter esActivo = [] :=
              List.getLast?_eq_none_iff.mp heq
            unfold numActivos
            rw [registros_asignar, registros_insert, List.filter_append, hnil]
            simp [esActivo]
  | stop ahora =>
      show numActivos (accionStop db ahora).1 ≤ 1
      unfold accionStop
      split
      · exact h
      · next reg _ =>
          unfold numActivos
          refine le_trans (length_filter_map_le _ _ ?_) h
          intro r hr
          by_cases hid : r.id = reg.id
          · rw [if_pos hid] at hr
            simp [esActivo] at hr
          · rw [if_neg hid]
  | manual fo =>
      show numActivos (accionManual db fo).1 ≤ 1
      unfold accionManual
      split
      · exact h
      · split
        · exact h
        · exact h
        · dsimp only
          split
          · exact h
          · rw [numActivos_congr (registros_asignar _ _ _),
               numActivos_insert_manual]
            exact h
  | cancelar fo =>
      show numActivos (accionCancelar db fo).1 ≤ 1
      unfold accionCancelar
      split
      · exact h
      · split
        · exact h
        · dsimp only
          split
          · exact h
          · rw [numActivos_congr (registros_asignar _ _ _),
               numActivos_insert_manual]
            exact h
  | settings hh mm =>
      show numActivos (accionSettings db hh mm).1 ≤ 1
      rw [numActivos_congr (registros_settings db hh mm)]; exact h
  | settingsInitTags c1 c2 c3 =>
      show numActivos (crearTagsIniciales db c1 c2 c3) ≤ 1
      rw [numActivos_congr (registros_crearIniciales db c1 c2 c3)]; exact h
  | settingsAssignTrabajo =>
      show numActivos (asignarTrabajoATodos db) ≤ 1
      rw [numActivos_congr (registros_trabajoATodos db)]; exact h
  | tagCrear n c m =>
      show numActivos (accionTagCrear db n c m).1 ≤ 1
      rw [numActivos_congr (registros_tagCrear db n c m)]; exact h
  | tagEditar tid n m =>
      show numActivos (accionTagEditar db tid n m).1 ≤ 1
      rw [numActivos_congr (registros_tagEditar db tid n m)]; exact h
  | borrarRegistro p =>
      show numActivos (handleDelete db p).1 ≤ 1
      cases p with
      | none => exact h
      | some rid =>
          unfold handleDelete numActivos
          exact le_trans (length_filter_filter_le _ _ _) h
  | borrarTag p =>
      show numActivos (handleDeleteTag db p).1 ≤ 1
      rw [numActivos_congr (registros_borrarTag db p)]; exact h
  | regenColor tid c =>
      show numActivos (handleRegenColor db tid c) ≤ 1
      exact h

theorem ejecutar_preserva (ops : List Op) :
    ∀ db : DB, numActivos db ≤ 1 → numActivos (ops.foldl aplicarOp db) ≤ 1 := by
  induction ops with
  | nil => intro db h; exact h
  | cons o t ih =>
      intro db h
      exact ih (aplicarOp db o) (paso_preserva db o h)

theorem foldl_add_int {α : Type} (g : α → Int) (l : List α) (c : Int) :
    l.foldl (fun a x => a + g x) c = c + (l.map g).sum := by
  induction l generalizing c with
  | nil => simp
  | cons x t ih =>
      simp only [List.foldl_cons, List.map_cons, List.sum_cons, ih]
      ring

theorem foldl_sub_int {α : Type} (g : α → Int) (l : List α) (c : Int) :
    l.foldl (fun a x => a - g x) c = c - (l.map g).sum := by
  induction l generalizing c with
  | nil => simp
  | cons x t ih =>
      simp only [List.foldl_cons, List.map_cons, List.sum_cons, ih]
      ring

theorem foldl_ite_add_int {α : Type} (c : α → Bool) (g : α → Int) (l : List α)
    (init : Int) :
    l.foldl (fun a x => if c x then a + g x else a) init
      = init + (l.map (fun x => if c x then g x else 0)).sum := by
  induction l generalizing init with
  | nil => simp
  | cons x t ih =>
      simp only [List.foldl_cons, List.map_cons, List.sum_cons]
      cases hc : c x <;> simp only [hc, if_true, if_false, Bool.false_eq_true,
        ih] <;> ring

theorem sum_map_sub_int {α : Type} (f g : α → Int) (l : List α) :
    (l.map (fun x => f x - g x)).sum = (l.map f).sum - (l.map g).sum := by
  induction l with
  | nil => simp
  | cons x t ih =>
      simp only [List.map_cons, List.sum_cons, ih]
      ring

theorem sum_filter_de_cero {α : Type} (p : α → Bool) (g : α → Int) (l : List α)
    (h : ∀ x ∈ l, p x = false → g x = 0) :
    ((l.filter p).map g).sum = (l.map g).sum := by
  induction l with
  | nil => simp
  | cons x t ih =>
      have ht := ih (fun y hy hpy => h y (List.mem_cons_of_mem x hy) hpy)
      rw [List.filter_cons]
      cases hx : p x
      · rw [if_neg (by simp [hx])]
        simp only [List.map_cons, List.sum_cons, ht,
          h x (List.mem_cons_self x t) hx]
        ring
      · rw [if_pos (by simp [hx])]
        simp only [List.map_cons, List.sum_cons, ht]

theorem total_cero_de_no_tiene (db : DB) (tid : Nat) (f : Int)
    (h : tieneTagDia db tid f = false) : totalTagDia db tid f = 0 := by
  unfold tieneTagDia at h
  unfold totalTagDia
  rw [List.filter_eq_nil_iff.mpr (List.any_eq_false.mp h)]
  simp

theorem total_cero_sin_fecha (db : DB) (tid : Nat) (d : Int)
    (h : db.registros.any (fun r => r.fecha == d) = false) :
    totalTagDia db tid d = 0 := by
  unfold totalTagDia
  rw [List.filter_eq_nil_iff.mpr ?_]
  · simp
  · intro a ha hpa
    have hnf := List.any_eq_false.mp h a ha
    unfold perteneceTagDia at hpa
    simp only [Bool.and_eq_true] at hpa
    exact hnf hpa.1

/-- The two-pass accumulated difference of render_logs equals the direct
per-day sum of actual minus quota over the whole month. -/
theorem acumulado_eq_spec (db : DB) (t : Tag) (desde hasta : Int) :
    acumuladoTagMes db t desde hasta = acumuladoTagMesSpec db t desde hasta := by
  unfold acumuladoTagMes acumuladoTagMesSpec fechasConRegistros
  rw [foldl_sub_int, foldl_ite_add_int, sum_map_sub_int]
  rw [List.map_congr_left (l :=
      (diasMes desde hasta).filter (fun d => db.registros.any (fun r => r.fecha == d)))
      (g := fun f => totalTagDia db t.id f) ?_]
  · rw [sum_filter_de_cero _ _ _ (fun x _ hx => total_cero_sin_fecha db t.id x hx)]
    ring
  · intro a _
    cases htiene : tieneTagDia db t.id a
    · simp [htiene, total_cero_de_no_tiene db t.id a htiene]
    · simp [htiene]

theorem duracionYfin_fin_valida (s e : Int) (df : Option (Int × Int))
    (h : s < e) : duracionYfin s (.valida e) df = (e - s, some e) := by
  unfold duracionYfin
  dsimp only
  rw [if_pos h]
  dsimp only
  rw [if_neg (by omega)]

theorem duracionYfin_sin_fin (s h m : Int)
    (hpos : 0 < h * 3600 + m * 60) :
    duracionYfin s .vacia (some (h, m))
      = (h * 3600 + m * 60, some (s + (h * 3600 + m * 60))) := by
  unfold duracionYfin
  dsimp only [Option.getD_some]
  rw [if_pos rfl]
  rw [if_pos hpos]

theorem duracionYfin_nula (s : Int) (fin : FormDT) (df : Option (Int × Int))
    (hfin : ∀ e2, fin = .valida e2 → e2 ≤ s)
    (hdf : (df.getD (0, 0)).1 * 3600 + (df.getD (0, 0)).2 * 60 ≤ 0) :
    (duracionYfin s fin df).1 ≤ 0 := by
  unfold duracionYfin
  cases fin with
  | vacia =>
      dsimp only
      rw [if_pos rfl, if_neg (by omega)]
      exact hdf
  | invalida =>
      dsimp only
      rw [if_pos rfl, if_neg (by omega)]
      exact hdf
  | valida e2 =>
      have hlt : ¬ s < e2 := by have := hfin e2 rfl; omega
      dsimp only
      rw [if_neg hlt]
      dsimp only
      rw [if_pos rfl]
      rw [if_neg (by omega)]
      exact hdf

/-! ### Claim theorems -/

/-- C1: deleting an entry is claimed to remove every registro_tags row that
references it. The code does not: the sqlite3 connection never enables
foreign-key enforcement, so the declared ON DELETE CASCADE never fires. On a
database holding entry 1 linked to tag 1, GET /delete/1 removes the registros
row yet leaves the association row (1, 1) in registro_tags. -/
theorem borrar_registro_deja_asociaciones :
    (∃ r ∈ dbConVinculo.registros, r.id = 1)
  ∧ (handleDelete dbConVinculo (some 1)).1.registros = []
  ∧ (1, 1) ∈ (handleDelete dbConVinculo (some 1)).1.registroTags := by
  refine ⟨?_, ?_, ?_⟩ <;> decide

/-- C2: starting from a freshly initialized database, every sequence of
mutating requests (start, stop, manual, cancelar, delete, tag operations,
settings) leaves at most one row of registros with fin NULL and manual 0. -/
theorem a_lo_sumo_un_cronometro (ops : List Op) :
    numActivos (ops.foldl aplicarOp dbInicial) ≤ 1 :=
  ejecutar_preserva ops dbInicial (by decide)

/-- C3: the accumulated monthly difference of render_logs, which subtracts
the weekday quota once per calendar day and then adds the actual per-day
totals, equals the direct sum over the days of the month of actual minus
quota times 60; in particular with a 60-minute daily quota and actuals of
90, 45 and 0 minutes over three days the per-day differences are +30, -15
and -60 minutes (seconds 1800, -900, -3600) and the accumulated difference
is -45 minutes (-2700 seconds). -/
theorem acumulado_mensual_correcto :
    (∀ (db : DB) (t : Tag) (desde hasta : Int),
        acumuladoTagMes db t desde hasta = acumuladoTagMesSpec db t desde hasta)
  ∧ ((diasMes 0 3).map
        (fun d => totalTagDia dbEjemplo 1 d - maxCol tagEjemplo (weekdayDe d) * 60)
      = [1800, -900, -3600])
  ∧ acumuladoTagMes dbEjemplo tagEjemplo 0 3 = -2700 :=
  ⟨acumulado_eq_spec, by decide, by decide⟩

/-- C4: an entry from Monday 23:00 (second 82800 of the displayed week) to
Tuesday 02:00 (second 93600), shown in the week containing both days,
produces exactly the two segments Monday 23:00-24:00 (3600 seconds) and
Tuesday 00:00-02:00 (7200 seconds), and their durations sum to the total
duration of the entry. -/
theorem calendario_segmenta_en_medianoche :
    segmentar 82800 93600 0 6
      = [{ day := 0, inicioSeg := 82800, durSeg := 3600 },
         { day := 1, inicioSeg := 0, durSeg := 7200 }]
  ∧ ((segmentar 82800 93600 0 6).map Segmento.durSeg).sum = 93600 - 82800 := by
  constructor <;> decide

/-- C5: a manual entry with an explicit end later than the start stores
duration end minus start; with no end and positive duration fields it stores
hours times 3600 plus minutes times 60; when neither yields a positive
duration the request is rejected with a warning and the database is
unchanged. -/
theorem manual_duracion_correcta (db : DB) (fo : ManualForm) (s e h m : Int) :
    (fo.tags ≠ [] → fo.inicio = .valida s → fo.fin = .valida e → s < e →
        (accionManual db fo).2.1 = "Entrada registrada."
      ∧ (accionManual db fo).1.registros.getLast?.map Registro.duracion
          = some (e - s))
  ∧ (fo.tags ≠ [] → fo.inicio = .valida s → fo.fin = .vacia →
        fo.durFields = some (h, m) → 0 < h * 3600 + m * 60 →
        (accionManual db fo).2.1 = "Entrada registrada."
      ∧ (accionManual db fo).1.registros.getLast?.map Registro.duracion
          = some (h * 3600 + m * 60))
  ∧ (fo.inicio = .valida s →
        (∀ e2, fo.fin = .valida e2 → e2 ≤ s) →
        (fo.durFields.getD (0, 0)).1 * 3600 + (fo.durFields.getD (0, 0)).2 * 60 ≤ 0 →
        (accionManual db fo).1 = db ∧ (accionManual db fo).2.2 = "warning") := by
  refine ⟨?_, ?_, ?_⟩
  · intro h1 h2 h3 h4
    have ht : fo.tags.isEmpty = false := List.isEmpty_eq_false.mpr h1
    unfold accionManual
    rw [if_neg (by simp [ht]), h2]
    dsimp only
    rw [h3, duracionYfin_fin_valida s e _ h4]
    dsimp only
    rw [if_neg (by omega)]
    refine ⟨rfl, ?_⟩
    rw [registros_asignar, registros_insert, List.getLast?_concat]
    rfl
  · intro h1 h2 h3 h5 h4
    have ht : fo.tags.isEmpty = false := List.isEmpty_eq_false.mpr h1
    unfold accionManual
    rw [if_neg (by simp [ht]), h2]
    dsimp only
    rw [h3, h5, duracionYfin_sin_fin s h m h4]
    dsimp only
    rw [if_neg (by omega)]
    refine ⟨rfl, ?_⟩
    rw [registros_asignar, registros_insert, List.getLast?_concat]
    rfl
  · intro h2 hfin hdf
    unfold accionManual
    cases ht : fo.tags.isEmpty with
    | true => rw [if_pos rfl]; exact ⟨rfl, rfl⟩
    | false =>
        rw [if_neg (by simp [ht]), h2]
        dsimp only
        rw [if_pos (duracionYfin_nula s fo.fin fo.durFields hfin hdf)]
        exact ⟨rfl, rfl⟩

/-- Witness for manual_duracion_correcta: an explicit end 5400 seconds after
the start stores 5400; duration fields of one hour one minute store 3660;
an empty end with zero duration fields is rejected without a change. -/
theorem manual_duracion_correcta_witness :
    ((accionManual dbInicial foManualFin).1.registros.getLast?.map Registro.duracion
        = some (5400 - 0))
  ∧ ((accionManual dbInicial foManualDur).1.registros.getLast?.map Registro.duracion
        = some (1 * 3600 + 1 * 60))
  ∧ ((accionManual dbInicial foManualNulo).1 = dbInicial
      ∧ (accionManual dbInicial foManualNulo).2.2 = "warning") :=
  ⟨((manual_duracion_correcta dbInicial foManualFin 0 5400 0 0).1
      (by decide) rfl rfl (by decide)).2,
   ((manual_duracion_correcta dbInicial foManualDur 0 0 1 1).2.1
      (by decide) rfl rfl rfl (by decide)).2,
   (manual_duracion_correcta dbInicial foManualNulo 0 0 0 0).2.2
      rfl (fun e2 hc => FormDT.noConfusion hc) (by decide)⟩

/-- C6 counterexample: the claim says every accepted cancelar input stores a
strictly negative duration, but the server never checks the sign of the form
fields: hours -1, minutes 0 is accepted with the success message and stores
the positive duration +3600. -/
theorem cancelar_acepta_duracion_positiva :
    (accionCancelar dbInicial foCancelarNeg).2.1 = "Cancelación registrada."
  ∧ (accionCancelar dbInicial foCancelarNeg).1.registros.map Registro.duracion
      = [3600]
  ∧ ¬ (3600 : Int) < 0
  ∧ (accionCancelar dbInicial foCancelarNeg).1.registros.map Registro.inicio
      = [none]
  ∧ (accionCancelar dbInicial foCancelarNeg).1.registros.map Registro.fin
      = [none] := by
  refine ⟨?_, ?_, ?_, ?_, ?_⟩ <;> decide

/-- C6 amended: every entry created by an accepted cancelar request, whatever
the sign of the form fields, has NULL start and end; when moreover the hours
and minutes fields are nonnegative (the constraint the HTML form enforces
client-side but the server never re-checks) the stored duration is strictly
negative. -/
theorem cancelar_negativa_con_campos_no_negativos (db : DB) (fo : CancelarForm)
    (hacc : (accionCancelar db fo).2.1 = "Cancelación registrada.") :
    ∃ r : Registro, (accionCancelar db fo).1.registros = db.registros ++ [r]
      ∧ r.inicio = none ∧ r.fin = none
      ∧ (0 ≤ fo.horas → 0 ≤ fo.minutos → r.duracion < 0) := by
  cases ht : fo.tags.isEmpty with
  | true =>
      rw [show accionCancelar db fo
            = (db, "Debes indicar al menos un tag.", "warning") from by
          unfold accionCancelar; rw [if_pos ht]] at hacc
      simp at hacc
  | false =>
      cases hf : fo.fecha with
      | none =>
          rw [show accionCancelar db fo
                = (db, "Debes indicar una fecha para cancelar horas.", "warning") from by
              unfold accionCancelar; rw [if_neg (by simp [ht]), hf]] at hacc
          simp at hacc
      | some f =>
          by_cases hdur : fo.horas * 3600 + fo.minutos * 60 = 0
          · rw [show accionCancelar db fo
                  = (db, "La duración debe ser mayor a cero para cancelar.", "warning") from by
                unfold accionCancelar
                rw [if_neg (by simp [ht]), hf]
                dsimp only
                rw [if_pos hdur]] at hacc
            simp at hacc
          · have heq : (accionCancelar db fo).1
                = asignarTagsARegistro
                    (insertRegistro db f none none
                      (-(fo.horas * 3600 + fo.minutos * 60))
                      (some (fo.descripcion.getD "Cancelación de horas")) 1).1
                    db.nextRegistroId fo.tags := by
              unfold accionCancelar
              rw [if_neg (by simp [ht]), hf]
              dsimp only
              rw [if_neg hdur]
              rfl
            refine ⟨{ id := db.nextRegistroId, fecha := f, inicio := none,
                      fin := none,
                      duracion := -(fo.horas * 3600 + fo.minutos * 60),
                      descripcion := some (fo.descripcion.getD "Cancelación de horas"),
                      manual := 1 }, ?_, rfl, rfl, ?_⟩
            · rw [heq, registros_asignar, registros_insert]
            · intro hh hm
              show -(fo.horas * 3600 + fo.minutos * 60) < 0
              omega

/-- Witness for cancelar_negativa_con_campos_no_negativos: a cancelar form
of one hour thirty minutes yields an entry with NULL start and end whose
duration is strictly negative under the nonnegative-field constraint. -/
theorem cancelar_negativa_witness :
    ∃ r : Registro, (accionCancelar dbInicial foCancelarOk).1.registros
        = dbInicial.registros ++ [r]
      ∧ r.inicio = none ∧ r.fin = none
      ∧ (0 ≤ foCancelarOk.horas → 0 ≤ foCancelarOk.minutos → r.duracion < 0) :=
  cancelar_negativa_con_campos_no_negativos dbInicial foCancelarOk (by decide)

/-- C7 counterexample: the claim says the per-day difference attributed to
untagged entries is the untagged total minus the global daily maximum times
60. On a database whose only entry is one untagged hour (3600 seconds) with
the default maximum of 450 minutes, render_logs computes a difference of
3600 seconds, not 3600 - 450 * 60 = -23400. -/
theorem diferencia_sin_tag_ignora_maximo :
    diferenciaDia dbSinTagEj 0 = 3600
  ∧ sinTagTotalDia dbSinTagEj 0 - dbSinTagEj.horasMaxDiarias * 60 = -23400
  ∧ ((3600 : Int) ≠ -23400) := by
  refine ⟨?_, ?_, ?_⟩ <;> decide

/-- C7 amended: the difference render_logs attributes to untagged entries is
the untagged total minus zero (the synthetic sin-tag row carries a zero in
the weekday column), and the stored global daily maximum never enters the
logs difference computation at all. -/
theorem diferencia_sin_tag_resta_cero :
    (∀ (db : DB) (f m : Int),
        diferenciaDia { db with horasMaxDiarias := m } f = diferenciaDia db f)
  ∧ (∀ (db : DB) (f : Int), db.tags = [] →
        diferenciaDia db f = sinTagTotalDia db f - 0) := by
  constructor
  · intro db f m; rfl
  · intro db f htags
    unfold diferenciaDia
    rw [htags]
    dsimp only
    simp only [List.filter_nil, List.foldl_nil]
    split <;> omega

/-- Witness for diferencia_sin_tag_resta_cero on the untagged example
database. -/
theorem diferencia_sin_tag_resta_cero_witness :
    diferenciaDia dbSinTagEj 0 = sinTagTotalDia dbSinTagEj 0 - 0 :=
  diferencia_sin_tag_resta_cero.2 dbSinTagEj 0 rfl

/-- C8: a start action received while a running timer exists responds with a
warning flash and leaves the database exactly as it was: no row modified, no
entry and no association inserted. -/
theorem start_con_activo_sin_cambio (db : DB) (ahora : Int)
    (desc : Option String) (tagIds : List Nat)
    (hact : registroActivo db ≠ none) :
    (accionStart db ahora desc tagIds).1 = db
  ∧ (accionStart db ahora desc tagIds).2.2 = "warning" := by
  unfold accionStart
  cases ht : tagIds.isEmpty with
  | true => rw [if_pos rfl]; exact ⟨rfl, rfl⟩
  | false =>
      rw [if_neg (by simp [ht])]
      cases hreg : registroActivo db with
      | none => exact absurd hreg hact
      | some r => exact ⟨rfl, rfl⟩

/-- Witness for start_con_activo_sin_cambio on a database with a running
timer. -/
theorem start_con_activo_sin_cambio_witness :
    (accionStart dbConActivo 100 none [1]).1 = dbConActivo
  ∧ (accionStart dbConActivo 100 none [1]).2.2 = "warning" :=
  start_con_activo_sin_cambio dbConActivo 100 none [1] (by decide)

/-- C9: deleting a tag referenced by an association row fails with a warning
redirect and leaves the database unchanged, the tag row included; deleting a
tag with no referencing association row succeeds, removes exactly the rows
of that tag id from the tags table and keeps every other tag. -/
theorem borrar_tag_protegido (db : DB) (tid : Int) :
    (tagReferenciado db tid = true →
        (handleDeleteTag db (some tid)).1 = db
      ∧ (handleDeleteTag db (some tid)).2
          = .redirect 303 "/tags"
              "Este tag ya se ha utilizado por lo que no se puede eliminar."
              "warning")
  ∧ (tagReferenciado db tid = false →
        (∀ t ∈ db.tags, (t.id : Int) ≠ tid →
            t ∈ (handleDeleteTag db (some tid)).1.tags)
      ∧ (∀ t ∈ (handleDeleteTag db (some tid)).1.tags, (t.id : Int) ≠ tid)
      ∧ (handleDeleteTag db (some tid)).2
          = .redirect 303 "/tags" "Tag eliminado." "success") := by
  constructor
  · intro h
    unfold handleDeleteTag
    dsimp only
    rw [if_pos h]
    exact ⟨rfl, rfl⟩
  · intro h
    unfold handleDeleteTag
    dsimp only
    rw [if_neg (by simp [h])]
    refine ⟨?_, ?_, rfl⟩
    · intro t ht hne
      exact List.mem_filter.mpr ⟨ht, by simpa using hne⟩
    · intro t ht
      have hmem := List.mem_filter.mp ht
      simpa using hmem.2

/-- Witness for borrar_tag_protegido: the referenced tag 1 of dbConVinculo
survives with the database untouched; the unreferenced tag 2 of dbTagLibre
is removed. -/
theorem borrar_tag_protegido_witness :
    (handleDeleteTag dbConVinculo (some 1)).1 = dbConVinculo
  ∧ (∀ t ∈ (handleDeleteTag dbTagLibre (some 2)).1.tags, (t.id : Int) ≠ 2) :=
  ⟨((borrar_tag_protegido dbConVinculo 1).1 (by decide)).1,
   ((borrar_tag_protegido dbTagLibre 2).2 (by decide)).2.1⟩

/-- C10: GET /delete/(id) with a numeric id matching no registros row still
answers the 303 redirect to /logs with the success message Registro
eliminado., never a not-found, and leaves the whole database unchanged. -/
theorem borrar_id_inexistente (db : DB) (rid : Int)
    (h : ∀ r ∈ db.registros, (r.id : Int) ≠ rid) :
    handleDelete db (some rid)
      = (db, .redirect 303 "/logs" "Registro eliminado." "success") := by
  unfold handleDelete
  dsimp only
  rw [List.filter_eq_self.mpr (fun a ha => by simpa using h a ha)]

/-- Witness for borrar_id_inexistente: deleting the absent id 99 returns the
success redirect and changes nothing. -/
theorem borrar_id_inexistente_witness :
    handleDelete dbConVinculo (some 99)
      = (dbConVinculo, .redirect 303 "/logs" "Registro eliminado." "success") :=
  borrar_id_inexistente dbConVinculo 99 (by decide)

end TaJustito
